import Mathlib

/-!
Verification of the Coachly exercise-technique scoring engine
(`src/lib/techniqueAnalysis.ts`, with the caller-level aggregation of
`src/lib/roboflow.ts`).

Modelling conventions:
* JavaScript numbers are modelled as exact rationals (`ℚ`); the
  transcendental angle computation (`Math.sqrt` / `Math.acos`) is modelled
  over `ℝ`.
* A JavaScript division `0 / 0` produces `NaN`; every comparison against
  `NaN` is `false`.  Wherever the source can divide by zero we model the
  result as an `Option` (`none` = `NaN`) or by an explicit case split that
  reproduces the `NaN` / `±Infinity` comparison behaviour of the source.
-/

/-- One pose keypoint, from `KeypointData` in `techniqueAnalysis.ts`
(`class` is a reserved word in Lean, so the field is called `className`). -/
structure KeypointData where
  className : String
  confidence : ℚ
  x : ℚ
  y : ℚ
  deriving DecidableEq

/-- The derived side profile (`'left' | 'right' | 'unknown'`). -/
inductive SideProfile where
  | left
  | right
  | unknown
  deriving DecidableEq

/-- The closed exercise selector (`'squat' | 'bench' | 'deadlift'`). -/
inductive Exercise where
  | squat
  | bench
  | deadlift
  deriving DecidableEq

/-- The result record of `analyzeTechnique`. -/
structure TechniqueAnalysisResult where
  score : ℚ
  issues : List String
  sideProfile : SideProfile
  deriving DecidableEq

/-- `List Char` version of JavaScript `String.prototype.startsWith`. -/
def charsHavePre : List Char → List Char → Bool
  | [], _ => true
  | _ :: _, [] => false
  | a :: as, b :: bs => a == b && charsHavePre as bs

/-- JavaScript `s.startsWith(pre)`. -/
def strStartsWith (pre s : String) : Bool :=
  charsHavePre pre.data s.data

/-- JavaScript `keypoints.find(kp => kp.class === name)` (first match by name). -/
def findKp (kps : List KeypointData) (name : String) : Option KeypointData :=
  kps.find? (fun kp => kp.className == name)

/-- `keypoints.filter(kp => kp.class.startsWith('left_'))`. -/
def leftKps (kps : List KeypointData) : List KeypointData :=
  kps.filter (fun kp => strStartsWith "left_" kp.className)

/-- `keypoints.filter(kp => kp.class.startsWith('right_'))`. -/
def rightKps (kps : List KeypointData) : List KeypointData :=
  kps.filter (fun kp => strStartsWith "right_" kp.className)

/-- `list.reduce((sum, kp) => sum + kp.confidence, 0) / list.length`.
On the empty list the source divides `0 / 0`, which is `NaN` in
JavaScript; that case is modelled as `none`. -/
def avgConfidence (l : List KeypointData) : Option ℚ :=
  match l with
  | [] => none
  | _ :: _ => some ((l.map KeypointData.confidence).sum / l.length)

/-- `determineSideProfile` from `techniqueAnalysis.ts`.  When either
partition is empty its average is `NaN`, so `confidenceDiff` is `NaN` and
the threshold comparison `confidenceDiff > 0.2` is `false`: the source
then returns `'unknown'`. -/
def determineSideProfile (kps : List KeypointData) : SideProfile :=
  match avgConfidence (leftKps kps), avgConfidence (rightKps kps) with
  | some leftAvg, some rightAvg =>
      if |leftAvg - rightAvg| > 1/5 then
        (if leftAvg > rightAvg then .left else .right)
      else .unknown
  | _, _ => .unknown

/-- The point `{x, y}` of a keypoint, as passed to `calculateAngle`. -/
def pt (kp : KeypointData) : ℚ × ℚ := (kp.x, kp.y)

/-- `calculateAngle(p1, p2, p3)` from `techniqueAnalysis.ts`:
`acos(clamp(dot / (mag1 * mag2))) * 180 / π`.  When either ray is zero the
source divides `0 / 0` (`dot` is then also `0`), producing `NaN` which
poisons the whole expression; that case is modelled as `none`. -/
noncomputable def calculateAngle (p1 p2 p3 : ℚ × ℚ) : Option ℝ :=
  let v1 : ℚ × ℚ := (p1.1 - p2.1, p1.2 - p2.2)
  let v2 : ℚ × ℚ := (p3.1 - p2.1, p3.2 - p2.2)
  if (v1.1 = 0 ∧ v1.2 = 0) ∨ (v2.1 = 0 ∧ v2.2 = 0) then none
  else
    let dot : ℚ := v1.1 * v2.1 + v1.2 * v2.2
    let mag1 : ℝ := Real.sqrt ((v1.1 : ℝ) ^ 2 + (v1.2 : ℝ) ^ 2)
    let mag2 : ℝ := Real.sqrt ((v2.1 : ℝ) ^ 2 + (v2.2 : ℝ) ^ 2)
    some (Real.arccos (max (-1) (min 1 ((dot : ℝ) / (mag1 * mag2)))) * (180 / Real.pi))

/-- A source comparison `calculateAngle(...) > t`; `NaN > t` is `false`. -/
def angleGT (p1 p2 p3 : ℚ × ℚ) (t : ℚ) : Prop :=
  match calculateAngle p1 p2 p3 with
  | none => False
  | some a => (t : ℝ) < a

/-- A source comparison `calculateAngle(...) < t`; `NaN < t` is `false`. -/
def angleLT (p1 p2 p3 : ℚ × ℚ) (t : ℚ) : Prop :=
  match calculateAngle p1 p2 p3 with
  | none => False
  | some a => a < (t : ℝ)

/-- A source comparison `num / den > t` (`t > 0`), with JavaScript
division-by-zero semantics: `den = 0` gives `±Infinity` (or `NaN` when
`num = 0`), so the comparison holds exactly when `num > 0`. -/
def jsRatioGT (num den t : ℚ) : Prop :=
  if den = 0 then 0 < num else t < num / den

/-- A source comparison `num / den < t` (`t > 0`), with JavaScript
division-by-zero semantics: `den = 0` gives `±Infinity` (or `NaN` when
`num = 0`), so the comparison holds exactly when `num < 0`. -/
def jsRatioLT (num den t : ℚ) : Prop :=
  if den = 0 then num < 0 else num / den < t

/-- `const side = sideProfile === 'left' ? 'left' : 'right'`, shared by all
three analyzers: `'unknown'` also selects `'right'`. -/
def sideFor (sp : SideProfile) : String :=
  if sp = SideProfile.left then "left" else "right"

open Classical in
/-- One source check
`if (cond) { issues.push(msg); scoreMultiplier -= pen; }`, acting on the
running `(issues, scoreMultiplier)` state. -/
noncomputable def checkStep (cond : Prop) (msg : String) (pen : ℚ)
    (r : List String × ℚ) : List String × ℚ :=
  if cond then (r.1 ++ [msg], r.2 - pen) else r

/-- The ordered squat checks (`analyzeSquatTechnique` after its gate):
each triggered check appends its message and subtracts its fixed penalty
from the accumulator started at `1.0`; the result is floored at `0.1`. -/
noncomputable def squatChecks (ankle knee hip shoulder : KeypointData)
    (nose : Option KeypointData) : List String × ℚ :=
  let r1 := checkStep (|knee.x - ankle.x| > 60)
    "Weight may be shifting to toes - focus on keeping heels down" (1/4) ([], 1)
  let r2 := checkStep (knee.x > ankle.x + 80)
    "Knees are tracking too far forward - sit back more into the squat" (1/5) r1
  let r3 := checkStep (angleGT (hip.x, hip.y - 100) (pt hip) (pt shoulder) 45)
    "Chest is collapsing forward - keep your torso more upright" (3/10) r2
  let r4 := checkStep (angleGT (pt ankle) (pt knee) (pt hip) 140)
    "Try to squat deeper - aim for thighs parallel to the ground" (1/10) r3
  let r5 := checkStep (angleLT (pt knee) (pt hip) (pt shoulder) 70)
    "Excessive hip flexion detected - avoid excessive \x27butt wink\x27" (3/20) r4
  let r6 := match nose with
    | some n => checkStep (|n.y - shoulder.y| > 100)
        "Maintain neutral head position - avoid looking too far up or down" (1/10) r5
    | none => r5
  (r6.1, max (1/10) r6.2)

/-- `analyzeSquatTechnique` from `techniqueAnalysis.ts` (issues,
scoreMultiplier).  The gate fires when a required side-specific landmark is
missing or has confidence `< 0.5`. -/
noncomputable def analyzeSquatTechnique (kps : List KeypointData)
    (sideProfile : SideProfile) : List String × ℚ :=
  let side := sideFor sideProfile
  match findKp kps (side ++ "_ankle"), findKp kps (side ++ "_knee"),
      findKp kps (side ++ "_hip"), findKp kps (side ++ "_shoulder") with
  | some ankle, some knee, some hip, some shoulder =>
      if ankle.confidence < 1/2 ∨ knee.confidence < 1/2 ∨
          hip.confidence < 1/2 ∨ shoulder.confidence < 1/2 then
        (["Cannot analyze squat form - key body parts not visible"], 3/10)
      else
        squatChecks ankle knee hip shoulder (findKp kps "nose")
  | _, _, _, _ => (["Cannot analyze squat form - key body parts not visible"], 3/10)

/-- The ordered deadlift checks (`analyzeDeadliftTechnique` after its
gate).  The hip-height ratio follows JavaScript division semantics via
`jsRatioGT` / `jsRatioLT`. -/
noncomputable def deadliftChecks (ankle knee hip shoulder : KeypointData)
    (nose : Option KeypointData) : List String × ℚ :=
  let r1 := checkStep (shoulder.x < ankle.x - 30)
    "Bar appears too far from your body - keep it close to your shins" (3/10) ([], 1)
  let r2 := checkStep (jsRatioGT (hip.y - knee.y) (knee.y - ankle.y) (5/2))
    "Hips may be too high - lower them to engage your legs more" (1/5) r1
  let r3 := checkStep (jsRatioLT (hip.y - knee.y) (knee.y - ankle.y) (4/5))
    "Hips may be too low - this isn\x27t a squat, raise them slightly" (1/5) r2
  let r4 := checkStep (angleGT (shoulder.x, shoulder.y - 100) (pt shoulder) (pt hip) 60)
    "Spine appears rounded - keep your chest up and shoulders back" (2/5) r3
  let r5 := checkStep (angleGT (pt ankle) (pt knee) (pt hip) 160)
    "Knees appear locked - maintain slight bend to engage leg muscles" (3/20) r4
  let r6 := match nose with
    | some n =>
        checkStep (angleLT (pt shoulder) (pt n) (n.x, n.y - 50) 15)
          "Avoid looking down - keep your head in neutral position" (1/10)
          (checkStep (angleGT (pt shoulder) (pt n) (n.x, n.y - 50) 45)
            "Avoid looking up excessively - maintain neutral neck position" (1/10) r5)
    | none => r5
  (r6.1, max (1/10) r6.2)

/-- `analyzeDeadliftTechnique` from `techniqueAnalysis.ts`. -/
noncomputable def analyzeDeadliftTechnique (kps : List KeypointData)
    (sideProfile : SideProfile) : List String × ℚ :=
  let side := sideFor sideProfile
  match findKp kps (side ++ "_ankle"), findKp kps (side ++ "_knee"),
      findKp kps (side ++ "_hip"), findKp kps (side ++ "_shoulder") with
  | some ankle, some knee, some hip, some shoulder =>
      if ankle.confidence < 1/2 ∨ knee.confidence < 1/2 ∨
          hip.confidence < 1/2 ∨ shoulder.confidence < 1/2 then
        (["Cannot analyze deadlift form - key body parts not visible"], 3/10)
      else
        deadliftChecks ankle knee hip shoulder (findKp kps "nose")
  | _, _, _, _ => (["Cannot analyze deadlift form - key body parts not visible"], 3/10)

/-- The ordered bench checks (`analyzeBenchTechnique` after its gate);
`hip` and `nose` are optional. -/
noncomputable def benchChecks (shoulder elbow wrist : KeypointData)
    (hip nose : Option KeypointData) : List String × ℚ :=
  let r1 := match hip with
    | some h => checkStep (shoulder.y < h.y - 150)
        "Shoulders may be shrugged up - retract and depress shoulder blades" (1/5) ([], 1)
    | none => ([], 1)
  let r2 := checkStep (angleGT (pt wrist) (pt elbow) (pt shoulder) 100)
    "Elbows flared too wide - bring them closer to your body" (1/4) r1
  let r3 := checkStep (angleLT (pt wrist) (pt elbow) (pt shoulder) 45)
    "Elbows tucked too tight - allow for slight flare" (3/20) r2
  let r4 := checkStep (|wrist.x - elbow.x| > 40)
    "Wrist alignment could be improved - keep wrists straight and stacked" (1/5) r3
  let r5 := checkStep (wrist.x < shoulder.x - 50)
    "Bar path may be too far toward your face - aim for lower chest" (3/10) r4
  let r6 := match hip with
    | some h => checkStep (|shoulder.x - h.x| > 80)
        "Excessive back arch detected - maintain moderate natural arch" (3/20) r5
    | none => r5
  let r7 := match nose with
    | some n => checkStep (n.y - shoulder.y > 50)
        "Keep your head on the bench - avoid lifting it during the press" (1/10) r6
    | none => r6
  (r7.1, max (1/10) r7.2)

/-- `analyzeBenchTechnique` from `techniqueAnalysis.ts`: the gate requires
only shoulder, elbow and wrist; hip and nose are optional. -/
noncomputable def analyzeBenchTechnique (kps : List KeypointData)
    (sideProfile : SideProfile) : List String × ℚ :=
  let side := sideFor sideProfile
  match findKp kps (side ++ "_shoulder"), findKp kps (side ++ "_elbow"),
      findKp kps (side ++ "_wrist") with
  | some shoulder, some elbow, some wrist =>
      if shoulder.confidence < 1/2 ∨ elbow.confidence < 1/2 ∨ wrist.confidence < 1/2 then
        (["Cannot analyze bench form - arm positions not clearly visible"], 3/10)
      else
        benchChecks shoulder elbow wrist (findKp kps (side ++ "_hip")) (findKp kps "nose")
  | _, _, _ => (["Cannot analyze bench form - arm positions not clearly visible"], 3/10)

/-- The number of supplied landmarks with confidence `< 0.5`
(`lowConfidenceKeypoints.length` in `analyzeTechnique`). -/
def lowConfidenceCount (kps : List KeypointData) : ℕ :=
  (kps.filter (fun kp => kp.confidence < 1/2)).length

/-- `analyzeTechnique` from `techniqueAnalysis.ts`: side-profile
selection, the global low-visibility penalty, the optional
exercise-specific analysis, and the final `Math.max(0, score)`. -/
noncomputable def analyzeTechnique (kps : List KeypointData)
    (exerciseType : Option Exercise) : TechniqueAnalysisResult :=
  let sideProfile := determineSideProfile kps
  let globalIssues : List String :=
    if 3 < lowConfidenceCount kps then ["Some body parts are not clearly visible"] else []
  let score : ℚ := if 3 < lowConfidenceCount kps then 1 - 1/5 else 1
  match exerciseType with
  | some .squat =>
      let a := analyzeSquatTechnique kps sideProfile
      ⟨max 0 (score * a.2), globalIssues ++ a.1, sideProfile⟩
  | some .deadlift =>
      let a := analyzeDeadliftTechnique kps sideProfile
      ⟨max 0 (score * a.2), globalIssues ++ a.1, sideProfile⟩
  | some .bench =>
      let a := analyzeBenchTechnique kps sideProfile
      ⟨max 0 (score * a.2), globalIssues ++ a.1, sideProfile⟩
  | none => ⟨max 0 score, globalIssues, sideProfile⟩

/-! ### Basic facts about `checkStep` -/

open Classical in
lemma checkStep_snd (cond : Prop) (msg : String) (pen : ℚ) (r : List String × ℚ) :
    (checkStep cond msg pen r).2 = r.2 - (if cond then pen else 0) := by
  unfold checkStep
  split_ifs <;> simp

open Classical in
lemma checkStep_fst (cond : Prop) (msg : String) (pen : ℚ) (r : List String × ℚ) :
    (checkStep cond msg pen r).1 = r.1 ++ (if cond then [msg] else []) := by
  unfold checkStep
  split_ifs <;> simp

lemma ite_pen_nonneg (cond : Prop) {inst : Decidable cond} {pen : ℚ} (h : 0 ≤ pen) :
    0 ≤ @ite ℚ cond inst pen 0 := by
  split_ifs <;> simp [h]

/-! ### Sums of triggered penalties -/

open Classical in
/-- The sum of the fixed penalties of the squat checks that trigger. -/
noncomputable def squatPenaltyOf (ankle knee hip shoulder : KeypointData)
    (nose : Option KeypointData) : ℚ :=
  (if |knee.x - ankle.x| > 60 then (1/4 : ℚ) else 0)
  + (if knee.x > ankle.x + 80 then 1/5 else 0)
  + (if angleGT (hip.x, hip.y - 100) (pt hip) (pt shoulder) 45 then 3/10 else 0)
  + (if angleGT (pt ankle) (pt knee) (pt hip) 140 then 1/10 else 0)
  + (if angleLT (pt knee) (pt hip) (pt shoulder) 70 then 3/20 else 0)
  + (match nose with
     | some n => if |n.y - shoulder.y| > 100 then (1/10 : ℚ) else 0
     | none => 0)

open Classical in
/-- The sum of the fixed penalties of the deadlift checks that trigger. -/
noncomputable def deadliftPenaltyOf (ankle knee hip shoulder : KeypointData)
    (nose : Option KeypointData) : ℚ :=
  (if shoulder.x < ankle.x - 30 then (3/10 : ℚ) else 0)
  + (if jsRatioGT (hip.y - knee.y) (knee.y - ankle.y) (5/2) then 1/5 else 0)
  + (if jsRatioLT (hip.y - knee.y) (knee.y - ankle.y) (4/5) then 1/5 else 0)
  + (if angleGT (shoulder.x, shoulder.y - 100) (pt shoulder) (pt hip) 60 then 2/5 else 0)
  + (if angleGT (pt ankle) (pt knee) (pt hip) 160 then 3/20 else 0)
  + (match nose with
     | some n =>
        (if angleGT (pt shoulder) (pt n) (n.x, n.y - 50) 45 then (1/10 : ℚ) else 0)
        + (if angleLT (pt shoulder) (pt n) (n.x, n.y - 50) 15 then (1/10 : ℚ) else 0)
     | none => 0)

open Classical in
/-- The sum of the fixed penalties of the bench checks that trigger. -/
noncomputable def benchPenaltyOf (shoulder elbow wrist : KeypointData)
    (hip nose : Option KeypointData) : ℚ :=
  (match hip with
   | some h => if shoulder.y < h.y - 150 then (1/5 : ℚ) else 0
   | none => 0)
  + (if angleGT (pt wrist) (pt elbow) (pt shoulder) 100 then 1/4 else 0)
  + (if angleLT (pt wrist) (pt elbow) (pt shoulder) 45 then 3/20 else 0)
  + (if |wrist.x - elbow.x| > 40 then 1/5 else 0)
  + (if wrist.x < shoulder.x - 50 then 3/10 else 0)
  + (match hip with
     | some h => if |shoulder.x - h.x| > 80 then (3/20 : ℚ) else 0
     | none => 0)
  + (match nose with
     | some n => if n.y - shoulder.y > 50 then (1/10 : ℚ) else 0
     | none => 0)

lemma squatChecks_snd (a k h s : KeypointData) (n : Option KeypointData) :
    (squatChecks a k h s n).2 = max (1/10) (1 - squatPenaltyOf a k h s n) := by
  cases n <;>
    · simp only [squatChecks, squatPenaltyOf, checkStep_snd]
      ring_nf

lemma deadliftChecks_snd (a k h s : KeypointData) (n : Option KeypointData) :
    (deadliftChecks a k h s n).2 = max (1/10) (1 - deadliftPenaltyOf a k h s n) := by
  cases n <;>
    · simp only [deadliftChecks, deadliftPenaltyOf, checkStep_snd]
      ring_nf

lemma benchChecks_snd (s e w : KeypointData) (h n : Option KeypointData) :
    (benchChecks s e w h n).2 = max (1/10) (1 - benchPenaltyOf s e w h n) := by
  cases h <;> cases n <;>
    · simp only [benchChecks, benchPenaltyOf, checkStep_snd]
      ring_nf

lemma squatPenaltyOf_nonneg (a k h s : KeypointData) (n : Option KeypointData) :
    0 ≤ squatPenaltyOf a k h s n := by
  cases n <;>
    · simp only [squatPenaltyOf]
      repeat' apply add_nonneg
      all_goals first
        | (apply ite_pen_nonneg; norm_num)
        | norm_num

lemma deadliftPenaltyOf_nonneg (a k h s : KeypointData) (n : Option KeypointData) :
    0 ≤ deadliftPenaltyOf a k h s n := by
  cases n <;>
    · simp only [deadliftPenaltyOf]
      repeat' apply add_nonneg
      all_goals first
        | (apply ite_pen_nonneg; norm_num)
        | norm_num

lemma benchPenaltyOf_nonneg (s e w : KeypointData) (h n : Option KeypointData) :
    0 ≤ benchPenaltyOf s e w h n := by
  cases h <;> cases n <;>
    · simp only [benchPenaltyOf]
      repeat' apply add_nonneg
      all_goals first
        | (apply ite_pen_nonneg; norm_num)
        | norm_num

lemma squatChecks_mult_bounds (a k h s : KeypointData) (n : Option KeypointData) :
    1/10 ≤ (squatChecks a k h s n).2 ∧ (squatChecks a k h s n).2 ≤ 1 := by
  rw [squatChecks_snd]
  exact ⟨le_max_left _ _,
    max_le (by norm_num) (by linarith [squatPenaltyOf_nonneg a k h s n])⟩

lemma deadliftChecks_mult_bounds (a k h s : KeypointData) (n : Option KeypointData) :
    1/10 ≤ (deadliftChecks a k h s n).2 ∧ (deadliftChecks a k h s n).2 ≤ 1 := by
  rw [deadliftChecks_snd]
  exact ⟨le_max_left _ _,
    max_le (by norm_num) (by linarith [deadliftPenaltyOf_nonneg a k h s n])⟩

lemma benchChecks_mult_bounds (s e w : KeypointData) (h n : Option KeypointData) :
    1/10 ≤ (benchChecks s e w h n).2 ∧ (benchChecks s e w h n).2 ≤ 1 := by
  rw [benchChecks_snd]
  exact ⟨le_max_left _ _,
    max_le (by norm_num) (by linarith [benchPenaltyOf_nonneg s e w h n])⟩

/-! ### Gate predicates -/

/-- A landmark is usable by an analyzer's gate: it is found and its
confidence is not `< 0.5`. -/
def landmarkUsable (kps : List KeypointData) (name : String) : Bool :=
  match findKp kps name with
  | none => false
  | some kp => decide (1/2 ≤ kp.confidence)

/-- The squat gate passes: side ankle, knee, hip and shoulder are all
usable. -/
def squatGateOk (kps : List KeypointData) (side : String) : Bool :=
  landmarkUsable kps (side ++ "_ankle") && landmarkUsable kps (side ++ "_knee") &&
    landmarkUsable kps (side ++ "_hip") && landmarkUsable kps (side ++ "_shoulder")

/-- The deadlift gate passes: side ankle, knee, hip and shoulder are all
usable. -/
def deadliftGateOk (kps : List KeypointData) (side : String) : Bool :=
  landmarkUsable kps (side ++ "_ankle") && landmarkUsable kps (side ++ "_knee") &&
    landmarkUsable kps (side ++ "_hip") && landmarkUsable kps (side ++ "_shoulder")

/-- The bench gate passes: side shoulder, elbow and wrist are all usable. -/
def benchGateOk (kps : List KeypointData) (side : String) : Bool :=
  landmarkUsable kps (side ++ "_shoulder") && landmarkUsable kps (side ++ "_elbow") &&
    landmarkUsable kps (side ++ "_wrist")

lemma analyzeSquat_gated (kps : List KeypointData) (sp : SideProfile)
    (hg : squatGateOk kps (sideFor sp) = false) :
    analyzeSquatTechnique kps sp =
      (["Cannot analyze squat form - key body parts not visible"], 3/10) := by
  unfold analyzeSquatTechnique
  cases hfa : findKp kps (sideFor sp ++ "_ankle") with
  | none => simp [hfa]
  | some a =>
    cases hfk : findKp kps (sideFor sp ++ "_knee") with
    | none => simp [hfa, hfk]
    | some k =>
      cases hfh : findKp kps (sideFor sp ++ "_hip") with
      | none => simp [hfa, hfk, hfh]
      | some h =>
        cases hfs : findKp kps (sideFor sp ++ "_shoulder") with
        | none => simp [hfa, hfk, hfh, hfs]
        | some s =>
          simp only [squatGateOk, landmarkUsable, hfa, hfk, hfh, hfs,
            Bool.and_eq_false_iff, decide_eq_false_iff_not, not_le] at hg
          simp only [hfa, hfk, hfh, hfs]
          rw [if_pos]
          tauto

lemma analyzeDeadlift_gated (kps : List KeypointData) (sp : SideProfile)
    (hg : deadliftGateOk kps (sideFor sp) = false) :
    analyzeDeadliftTechnique kps sp =
      (["Cannot analyze deadlift form - key body parts not visible"], 3/10) := by
  unfold analyzeDeadliftTechnique
  cases hfa : findKp kps (sideFor sp ++ "_ankle") with
  | none => simp [hfa]
  | some a =>
    cases hfk : findKp kps (sideFor sp ++ "_knee") with
    | none => simp [hfa, hfk]
    | some k =>
      cases hfh : findKp kps (sideFor sp ++ "_hip") with
      | none => simp [hfa, hfk, hfh]
      | some h =>
        cases hfs : findKp kps (sideFor sp ++ "_shoulder") with
        | none => simp [hfa, hfk, hfh, hfs]
        | some s =>
          simp only [deadliftGateOk, landmarkUsable, hfa, hfk, hfh, hfs,
            Bool.and_eq_false_iff, decide_eq_false_iff_not, not_le] at hg
          simp only [hfa, hfk, hfh, hfs]
          rw [if_pos]
          tauto

lemma analyzeBench_gated (kps : List KeypointData) (sp : SideProfile)
    (hg : benchGateOk kps (sideFor sp) = false) :
    analyzeBenchTechnique kps sp =
      (["Cannot analyze bench form - arm positions not clearly visible"], 3/10) := by
  unfold analyzeBenchTechnique
  cases hfs : findKp kps (sideFor sp ++ "_shoulder") with
  | none => simp [hfs]
  | some s =>
    cases hfe : findKp kps (sideFor sp ++ "_elbow") with
    | none => simp [hfs, hfe]
    | some e =>
      cases hfw : findKp kps (sideFor sp ++ "_wrist") with
      | none => simp [hfs, hfe, hfw]
      | some w =>
        simp only [benchGateOk, landmarkUsable, hfs, hfe, hfw,
          Bool.and_eq_false_iff, decide_eq_false_iff_not, not_le] at hg
        simp only [hfs, hfe, hfw]
        rw [if_pos]
        tauto

open Classical in
/-- The sum of the penalties of the triggered squat checks, on the
landmarks found in the keypoint list (`0` when the gate data is absent). -/
noncomputable def squatPenalty (kps : List KeypointData) (sp : SideProfile) : ℚ :=
  match findKp kps (sideFor sp ++ "_ankle"), findKp kps (sideFor sp ++ "_knee"),
      findKp kps (sideFor sp ++ "_hip"), findKp kps (sideFor sp ++ "_shoulder") with
  | some ankle, some knee, some hip, some shoulder =>
      squatPenaltyOf ankle knee hip shoulder (findKp kps "nose")
  | _, _, _, _ => 0

open Classical in
/-- The sum of the penalties of the triggered deadlift checks, on the
landmarks found in the keypoint list. -/
noncomputable def deadliftPenalty (kps : List KeypointData) (sp : SideProfile) : ℚ :=
  match findKp kps (sideFor sp ++ "_ankle"), findKp kps (sideFor sp ++ "_knee"),
      findKp kps (sideFor sp ++ "_hip"), findKp kps (sideFor sp ++ "_shoulder") with
  | some ankle, some knee, some hip, some shoulder =>
      deadliftPenaltyOf ankle knee hip shoulder (findKp kps "nose")
  | _, _, _, _ => 0

open Classical in
/-- The sum of the penalties of the triggered bench checks, on the
landmarks found in the keypoint list. -/
noncomputable def benchPenalty (kps : List KeypointData) (sp : SideProfile) : ℚ :=
  match findKp kps (sideFor sp ++ "_shoulder"), findKp kps (sideFor sp ++ "_elbow"),
      findKp kps (sideFor sp ++ "_wrist") with
  | some shoulder, some elbow, some wrist =>
      benchPenaltyOf shoulder elbow wrist (findKp kps (sideFor sp ++ "_hip")) (findKp kps "nose")
  | _, _, _ => 0

lemma analyzeSquat_snd_ok (kps : List KeypointData) (sp : SideProfile)
    (hg : squatGateOk kps (sideFor sp) = true) :
    (analyzeSquatTechnique kps sp).2 = max (1/10) (1 - squatPenalty kps sp) := by
  unfold analyzeSquatTechnique squatPenalty
  cases hfa : findKp kps (sideFor sp ++ "_ankle") with
  | none => exact absurd hg (by simp [squatGateOk, landmarkUsable, hfa])
  | some a =>
    cases hfk : findKp kps (sideFor sp ++ "_knee") with
    | none => exact absurd hg (by simp [squatGateOk, landmarkUsable, hfk])
    | some k =>
      cases hfh : findKp kps (sideFor sp ++ "_hip") with
      | none => exact absurd hg (by simp [squatGateOk, landmarkUsable, hfh])
      | some h =>
        cases hfs : findKp kps (sideFor sp ++ "_shoulder") with
        | none => exact absurd hg (by simp [squatGateOk, landmarkUsable, hfs])
        | some s =>
          simp only [squatGateOk, landmarkUsable, hfa, hfk, hfh, hfs,
            Bool.and_eq_true, decide_eq_true_eq] at hg
          simp only [hfa, hfk, hfh, hfs]
          rw [if_neg, squatChecks_snd]
          push_neg
          exact ⟨hg.1.1.1, hg.1.1.2, hg.1.2, hg.2⟩

lemma analyzeDeadlift_snd_ok (kps : List KeypointData) (sp : SideProfile)
    (hg : deadliftGateOk kps (sideFor sp) = true) :
    (analyzeDeadliftTechnique kps sp).2 = max (1/10) (1 - deadliftPenalty kps sp) := by
  unfold analyzeDeadliftTechnique deadliftPenalty
  cases hfa : findKp kps (sideFor sp ++ "_ankle") with
  | none => exact absurd hg (by simp [deadliftGateOk, landmarkUsable, hfa])
  | some a =>
    cases hfk : findKp kps (sideFor sp ++ "_knee") with
    | none => exact absurd hg (by simp [deadliftGateOk, landmarkUsable, hfk])
    | some k =>
      cases hfh : findKp kps (sideFor sp ++ "_hip") with
      | none => exact absurd hg (by simp [deadliftGateOk, landmarkUsable, hfh])
      | some h =>
        cases hfs : findKp kps (sideFor sp ++ "_shoulder") with
        | none => exact absurd hg (by simp [deadliftGateOk, landmarkUsable, hfs])
        | some s =>
          simp only [deadliftGateOk, landmarkUsable, hfa, hfk, hfh, hfs,
            Bool.and_eq_true, decide_eq_true_eq] at hg
          simp only [hfa, hfk, hfh, hfs]
          rw [if_neg, deadliftChecks_snd]
          push_neg
          exact ⟨hg.1.1.1, hg.1.1.2, hg.1.2, hg.2⟩

lemma analyzeBench_snd_ok (kps : List KeypointData) (sp : SideProfile)
    (hg : benchGateOk kps (sideFor sp) = true) :
    (analyzeBenchTechnique kps sp).2 = max (1/10) (1 - benchPenalty kps sp) := by
  unfold analyzeBenchTechnique benchPenalty
  cases hfs : findKp kps (sideFor sp ++ "_shoulder") with
  | none => exact absurd hg (by simp [benchGateOk, landmarkUsable, hfs])
  | some s =>
    cases hfe : findKp kps (sideFor sp ++ "_elbow") with
    | none => exact absurd hg (by simp [benchGateOk, landmarkUsable, hfe])
    | some e =>
      cases hfw : findKp kps (sideFor sp ++ "_wrist") with
      | none => exact absurd hg (by simp [benchGateOk, landmarkUsable, hfw])
      | some w =>
        simp only [benchGateOk, landmarkUsable, hfs, hfe, hfw,
          Bool.and_eq_true, decide_eq_true_eq] at hg
        simp only [hfs, hfe, hfw]
        rw [if_neg, benchChecks_snd]
        push_neg
        exact ⟨hg.1.1, hg.1.2, hg.2⟩

lemma squatPenalty_nonneg (kps : List KeypointData) (sp : SideProfile) :
    0 ≤ squatPenalty kps sp := by
  unfold squatPenalty
  rcases findKp kps (sideFor sp ++ "_ankle") with - | a <;>
    rcases findKp kps (sideFor sp ++ "_knee") with - | k <;>
      rcases findKp kps (sideFor sp ++ "_hip") with - | h <;>
        rcases findKp kps (sideFor sp ++ "_shoulder") with - | s <;>
          first
            | exact le_refl 0
            | exact squatPenaltyOf_nonneg a k h s _

lemma deadliftPenalty_nonneg (kps : List KeypointData) (sp : SideProfile) :
    0 ≤ deadliftPenalty kps sp := by
  unfold deadliftPenalty
  rcases findKp kps (sideFor sp ++ "_ankle") with - | a <;>
    rcases findKp kps (sideFor sp ++ "_knee") with - | k <;>
      rcases findKp kps (sideFor sp ++ "_hip") with - | h <;>
        rcases findKp kps (sideFor sp ++ "_shoulder") with - | s <;>
          first
            | exact le_refl 0
            | exact deadliftPenaltyOf_nonneg a k h s _

lemma benchPenalty_nonneg (kps : List KeypointData) (sp : SideProfile) :
    0 ≤ benchPenalty kps sp := by
  unfold benchPenalty
  rcases findKp kps (sideFor sp ++ "_shoulder") with - | s <;>
    rcases findKp kps (sideFor sp ++ "_elbow") with - | e <;>
      rcases findKp kps (sideFor sp ++ "_wrist") with - | w <;>
        first
          | exact le_refl 0
          | exact benchPenaltyOf_nonneg s e w _ _

lemma analyzeSquat_mult_bounds (kps : List KeypointData) (sp : SideProfile) :
    1/10 ≤ (analyzeSquatTechnique kps sp).2 ∧ (analyzeSquatTechnique kps sp).2 ≤ 1 := by
  cases hg : squatGateOk kps (sideFor sp) with
  | false => rw [analyzeSquat_gated kps sp hg]; norm_num
  | true =>
    rw [analyzeSquat_snd_ok kps sp hg]
    exact ⟨le_max_left _ _,
      max_le (by norm_num) (by linarith [squatPenalty_nonneg kps sp])⟩

lemma analyzeDeadlift_mult_bounds (kps : List KeypointData) (sp : SideProfile) :
    1/10 ≤ (analyzeDeadliftTechnique kps sp).2 ∧ (analyzeDeadliftTechnique kps sp).2 ≤ 1 := by
  cases hg : deadliftGateOk kps (sideFor sp) with
  | false => rw [analyzeDeadlift_gated kps sp hg]; norm_num
  | true =>
    rw [analyzeDeadlift_snd_ok kps sp hg]
    exact ⟨le_max_left _ _,
      max_le (by norm_num) (by linarith [deadliftPenalty_nonneg kps sp])⟩

lemma analyzeBench_mult_bounds (kps : List KeypointData) (sp : SideProfile) :
    1/10 ≤ (analyzeBenchTechnique kps sp).2 ∧ (analyzeBenchTechnique kps sp).2 ≤ 1 := by
  cases hg : benchGateOk kps (sideFor sp) with
  | false => rw [analyzeBench_gated kps sp hg]; norm_num
  | true =>
    rw [analyzeBench_snd_ok kps sp hg]
    exact ⟨le_max_left _ _,
      max_le (by norm_num) (by linarith [benchPenalty_nonneg kps sp])⟩

/-- C1: for every keypoint list and every optional exercise selector the
`score` returned by `analyzeTechnique` lies in `[0, 1]`. -/
theorem claim_C1_score_in_unit_interval (kps : List KeypointData)
    (exerciseType : Option Exercise) :
    0 ≤ (analyzeTechnique kps exerciseType).score ∧
      (analyzeTechnique kps exerciseType).score ≤ 1 := by
  have hbase : (0:ℚ) ≤ (if 3 < lowConfidenceCount kps then 1 - 1/5 else 1) ∧
      (if 3 < lowConfidenceCount kps then 1 - 1/5 else (1:ℚ)) ≤ 1 := by
    split_ifs <;> norm_num
  unfold analyzeTechnique
  rcases exerciseType with - | e
  · exact ⟨le_max_left _ _, max_le (by norm_num) hbase.2⟩
  rcases e with - | - | -
  all_goals refine ⟨le_max_left _ _, max_le (by norm_num) ?_⟩
  · exact mul_le_one₀ hbase.2 (le_trans (by norm_num) (analyzeSquat_mult_bounds kps _).1)
      (analyzeSquat_mult_bounds kps _).2
  · exact mul_le_one₀ hbase.2 (le_trans (by norm_num) (analyzeBench_mult_bounds kps _).1)
      (analyzeBench_mult_bounds kps _).2
  · exact mul_le_one₀ hbase.2 (le_trans (by norm_num) (analyzeDeadlift_mult_bounds kps _).1)
      (analyzeDeadlift_mult_bounds kps _).2

/-- C2: for each exercise analyzer, when any required side-specific
landmark (squat/deadlift: ankle, knee, hip, shoulder; bench: shoulder,
elbow, wrist) is absent or has confidence `< 0.5`, the analyzer returns
exactly the single `Cannot analyze ... form` issue and multiplier exactly
`0.3`. -/
theorem claim_C2_gate_short_circuit (kps : List KeypointData) (sp : SideProfile) :
    (squatGateOk kps (sideFor sp) = false →
      analyzeSquatTechnique kps sp =
        (["Cannot analyze squat form - key body parts not visible"], 3/10)) ∧
    (deadliftGateOk kps (sideFor sp) = false →
      analyzeDeadliftTechnique kps sp =
        (["Cannot analyze deadlift form - key body parts not visible"], 3/10)) ∧
    (benchGateOk kps (sideFor sp) = false →
      analyzeBenchTechnique kps sp =
        (["Cannot analyze bench form - arm positions not clearly visible"], 3/10)) :=
  ⟨analyzeSquat_gated kps sp, analyzeDeadlift_gated kps sp, analyzeBench_gated kps sp⟩

/-- The all-low-confidence keypoint list of spec scenario B. -/
def scenarioB : List KeypointData :=
  [⟨"right_ankle", 1/5, 0, 0⟩, ⟨"right_knee", 1/5, 0, 0⟩,
   ⟨"right_hip", 1/5, 0, 0⟩, ⟨"right_shoulder", 1/5, 0, 0⟩]

theorem claim_C2_witness :
    analyzeSquatTechnique scenarioB SideProfile.right =
      (["Cannot analyze squat form - key body parts not visible"], 3/10) ∧
    analyzeDeadliftTechnique scenarioB SideProfile.right =
      (["Cannot analyze deadlift form - key body parts not visible"], 3/10) ∧
    analyzeBenchTechnique scenarioB SideProfile.right =
      (["Cannot analyze bench form - arm positions not clearly visible"], 3/10) :=
  ⟨(claim_C2_gate_short_circuit scenarioB SideProfile.right).1
      (by simp [squatGateOk, landmarkUsable, findKp, scenarioB, sideFor, List.find?]; norm_num),
   (claim_C2_gate_short_circuit scenarioB SideProfile.right).2.1
      (by simp [deadliftGateOk, landmarkUsable, findKp, scenarioB, sideFor, List.find?]; norm_num),
   (claim_C2_gate_short_circuit scenarioB SideProfile.right).2.2
      (by simp [benchGateOk, landmarkUsable, findKp, scenarioB, sideFor, List.find?])⟩

/-- C3: for each exercise analyzer, whenever the gate passes the returned
multiplier equals `max(0.1, 1.0 - sum of the penalties of the triggered
checks)` (checks subtract cumulatively from an accumulator started at
`1.0`), and the multiplier never falls below `0.1`. -/
theorem claim_C3_multiplier_formula (kps : List KeypointData) (sp : SideProfile) :
    (squatGateOk kps (sideFor sp) = true →
      (analyzeSquatTechnique kps sp).2 = max (1/10) (1 - squatPenalty kps sp) ∧
        1/10 ≤ (analyzeSquatTechnique kps sp).2) ∧
    (deadliftGateOk kps (sideFor sp) = true →
      (analyzeDeadliftTechnique kps sp).2 = max (1/10) (1 - deadliftPenalty kps sp) ∧
        1/10 ≤ (analyzeDeadliftTechnique kps sp).2) ∧
    (benchGateOk kps (sideFor sp) = true →
      (analyzeBenchTechnique kps sp).2 = max (1/10) (1 - benchPenalty kps sp) ∧
        1/10 ≤ (analyzeBenchTechnique kps sp).2) := by
  refine ⟨fun hg => ⟨analyzeSquat_snd_ok kps sp hg, ?_⟩,
    fun hg => ⟨analyzeDeadlift_snd_ok kps sp hg, ?_⟩,
    fun hg => ⟨analyzeBench_snd_ok kps sp hg, ?_⟩⟩
  · rw [analyzeSquat_snd_ok kps sp hg]; exact le_max_left _ _
  · rw [analyzeDeadlift_snd_ok kps sp hg]; exact le_max_left _ _
  · rw [analyzeBench_snd_ok kps sp hg]; exact le_max_left _ _

/-- A keypoint list on which all three gates pass. -/
def allGatesInput : List KeypointData :=
  [⟨"right_ankle", 9/10, 100, 500⟩, ⟨"right_knee", 9/10, 100, 400⟩,
   ⟨"right_hip", 9/10, 100, 300⟩, ⟨"right_shoulder", 9/10, 100, 150⟩,
   ⟨"right_elbow", 9/10, 120, 200⟩, ⟨"right_wrist", 9/10, 120, 250⟩]

theorem claim_C3_witness :
    ((analyzeSquatTechnique allGatesInput SideProfile.right).2 =
        max (1/10) (1 - squatPenalty allGatesInput SideProfile.right) ∧
      1/10 ≤ (analyzeSquatTechnique allGatesInput SideProfile.right).2) ∧
    ((analyzeDeadliftTechnique allGatesInput SideProfile.right).2 =
        max (1/10) (1 - deadliftPenalty allGatesInput SideProfile.right) ∧
      1/10 ≤ (analyzeDeadliftTechnique allGatesInput SideProfile.right).2) ∧
    ((analyzeBenchTechnique allGatesInput SideProfile.right).2 =
        max (1/10) (1 - benchPenalty allGatesInput SideProfile.right) ∧
      1/10 ≤ (analyzeBenchTechnique allGatesInput SideProfile.right).2) :=
  ⟨(claim_C3_multiplier_formula allGatesInput SideProfile.right).1
      (by simp [squatGateOk, landmarkUsable, findKp, allGatesInput, sideFor, List.find?]; norm_num),
   (claim_C3_multiplier_formula allGatesInput SideProfile.right).2.1
      (by simp [deadliftGateOk, landmarkUsable, findKp, allGatesInput, sideFor, List.find?]; norm_num),
   (claim_C3_multiplier_formula allGatesInput SideProfile.right).2.2
      (by simp [benchGateOk, landmarkUsable, findKp, allGatesInput, sideFor, List.find?]; norm_num)⟩

/-- C6: for every keypoint list, each exercise analyzer returns exactly
the same issues and multiplier for `sideProfile = 'unknown'` as for
`sideProfile = 'right'` (right-side landmarks are used unless the profile
is `'left'`). -/
theorem claim_C6_unknown_defaults_right (kps : List KeypointData) :
    analyzeSquatTechnique kps SideProfile.unknown =
        analyzeSquatTechnique kps SideProfile.right ∧
    analyzeDeadliftTechnique kps SideProfile.unknown =
        analyzeDeadliftTechnique kps SideProfile.right ∧
    analyzeBenchTechnique kps SideProfile.unknown =
        analyzeBenchTechnique kps SideProfile.right :=
  ⟨rfl, rfl, rfl⟩

/-- C8: with no exercise given, only side-profile selection and the
global visibility check run: more than `3` low-confidence landmarks give
exactly the single visibility issue and score `0.8`; otherwise no issues
and score `1.0`. -/
theorem claim_C8_no_exercise (kps : List KeypointData) :
    analyzeTechnique kps none =
      ⟨if 3 < lowConfidenceCount kps then 4/5 else 1,
       if 3 < lowConfidenceCount kps then ["Some body parts are not clearly visible"] else [],
       determineSideProfile kps⟩ := by
  unfold analyzeTechnique
  split_ifs with h <;> (simp; try norm_num)

/-! ### Side-profile selection on empty partitions (C4) -/

/-- The side selector as the spec's policy words it (§4.1): an empty
partition is excluded from the decision, so a lone non-empty partition
decides by itself, and only when both partitions are empty is the result
`unknown`.  This definition follows the spec's words, for comparison with
`determineSideProfile` from the source. -/
def determineSideProfileSpecPolicy (kps : List KeypointData) : SideProfile :=
  match avgConfidence (leftKps kps), avgConfidence (rightKps kps) with
  | none, none => .unknown
  | some _, none => .left
  | none, some _ => .right
  | some leftAvg, some rightAvg =>
      if |leftAvg - rightAvg| > 1/5 then
        (if leftAvg > rightAvg then .left else .right)
      else .unknown

/-- A keypoint list whose `left_` partition is empty while the `right_`
partition has high confidence. -/
def c4Input : List KeypointData := [⟨"right_shoulder", 9/10, 0, 0⟩]

/-- C4 counterexample: on a list with an empty `left_` partition and a
high-confidence `right_` partition the source returns `'unknown'` (the
empty partition's `NaN` mean is propagated into the threshold comparison),
whereas excluding the empty partition from the decision, as the claim
states, would return `'right'`. -/
theorem claim_C4_counterexample :
    determineSideProfile c4Input = SideProfile.unknown ∧
      determineSideProfileSpecPolicy c4Input = SideProfile.right :=
  ⟨rfl, rfl⟩

/-- C4 (amended): the empty partition's undefined mean propagates into
the threshold comparison as `NaN`, making it false, so whenever either
partition is empty the selector returns `'unknown'`; in particular when
both partitions are empty the result is `'unknown'`. -/
theorem claim_C4_empty_partition_unknown (kps : List KeypointData)
    (h : leftKps kps = [] ∨ rightKps kps = []) :
    determineSideProfile kps = SideProfile.unknown := by
  unfold determineSideProfile
  rcases h with h | h
  · rw [h]
    rcases avgConfidence (rightKps kps) with - | r <;> simp [avgConfidence]
  · rw [h]
    rcases avgConfidence (leftKps kps) with - | l <;> simp [avgConfidence]

theorem claim_C4_witness : determineSideProfile c4Input = SideProfile.unknown :=
  claim_C4_empty_partition_unknown c4Input (Or.inl rfl)

/-! ### Left/right prefix swap symmetry (C7) -/

/-- Replace a `left_` name prefix by `right_` and vice versa. -/
def swapName (s : String) : String :=
  if strStartsWith "left_" s then ⟨"right_".data ++ s.data.drop 5⟩
  else if strStartsWith "right_" s then ⟨"left_".data ++ s.data.drop 6⟩
  else s

/-- Apply the prefix swap to one keypoint's name. -/
def swapKp (kp : KeypointData) : KeypointData :=
  ⟨swapName kp.className, kp.confidence, kp.x, kp.y⟩

/-- Exchange `left` and `right`, fixing `unknown`. -/
def swapSide : SideProfile → SideProfile
  | .left => .right
  | .right => .left
  | .unknown => .unknown

lemma charsHavePre_append (p l : List Char) : charsHavePre p (p ++ l) = true := by
  induction p with
  | nil => rfl
  | cons a as ih => simp [charsHavePre, ih]

lemma left_not_pre_right (l : List Char) :
    charsHavePre "left_".data ("right_".data ++ l) = false := rfl

lemma right_not_pre_left (l : List Char) :
    charsHavePre "right_".data ("left_".data ++ l) = false := rfl

lemma startsLeft_of_startsRight (s : String) (h : strStartsWith "right_" s = true) :
    strStartsWith "left_" s = false := by
  unfold strStartsWith at h ⊢
  cases hd : s.data with
  | nil => rw [hd] at h; exact absurd h (by decide)
  | cons c cs =>
    rw [hd, show "right_".data = 'r' :: "ight_".data from rfl] at h
    simp only [charsHavePre, Bool.and_eq_true, beq_iff_eq] at h
    rw [← h.1]
    rfl

lemma startsRight_of_startsLeft (s : String) (h : strStartsWith "left_" s = true) :
    strStartsWith "right_" s = false := by
  unfold strStartsWith at h ⊢
  cases hd : s.data with
  | nil => rw [hd] at h; exact absurd h (by decide)
  | cons c cs =>
    rw [hd, show "left_".data = 'l' :: "eft_".data from rfl] at h
    simp only [charsHavePre, Bool.and_eq_true, beq_iff_eq] at h
    rw [← h.1]
    rfl

lemma startsLeft_swapName (s : String) :
    strStartsWith "left_" (swapName s) = strStartsWith "right_" s := by
  unfold swapName
  split_ifs with h1 h2
  · rw [startsRight_of_startsLeft s h1]
    exact left_not_pre_right _
  · rw [h2]
    exact charsHavePre_append _ _
  · simp only [Bool.not_eq_true] at h1 h2
    rw [h1, h2]

lemma startsRight_swapName (s : String) :
    strStartsWith "right_" (swapName s) = strStartsWith "left_" s := by
  unfold swapName
  split_ifs with h1 h2
  · rw [h1]
    exact charsHavePre_append _ _
  · rw [startsLeft_of_startsRight s h2]
    exact right_not_pre_left _
  · simp only [Bool.not_eq_true] at h1 h2
    rw [h1, h2]

lemma leftKps_swap (kps : List KeypointData) :
    leftKps (kps.map swapKp) = (rightKps kps).map swapKp := by
  unfold leftKps rightKps
  rw [List.filter_map]
  congr 1
  apply List.filter_congr
  intro kp _
  exact startsLeft_swapName kp.className

lemma rightKps_swap (kps : List KeypointData) :
    rightKps (kps.map swapKp) = (leftKps kps).map swapKp := by
  unfold leftKps rightKps
  rw [List.filter_map]
  congr 1
  apply List.filter_congr
  intro kp _
  exact startsRight_swapName kp.className

lemma avgConfidence_swap (l : List KeypointData) :
    avgConfidence (l.map swapKp) = avgConfidence l := by
  cases l with
  | nil => rfl
  | cons x xs =>
    have h1 : List.map KeypointData.confidence (List.map swapKp (x :: xs)) =
        List.map KeypointData.confidence (x :: xs) := by
      rw [List.map_map]
      rfl
    simp only [List.map_cons] at h1
    simp only [avgConfidence, List.map_cons, List.length_cons, List.length_map]
    rw [h1]

/-- C7: swapping every `left_`/`right_` name prefix maps the computed
side profile `left` to `right` and `right` to `left`, and leaves
`unknown` unchanged. -/
theorem claim_C7_swap_symmetry (kps : List KeypointData) :
    determineSideProfile (kps.map swapKp) = swapSide (determineSideProfile kps) := by
  unfold determineSideProfile
  rw [leftKps_swap, rightKps_swap, avgConfidence_swap, avgConfidence_swap]
  rcases avgConfidence (leftKps kps) with - | l <;>
    rcases avgConfidence (rightKps kps) with - | r <;>
      simp only [swapSide]
  rw [abs_sub_comm r l]
  split_ifs with hC h1 h2 h2
  · exact absurd (lt_trans h1 h2) (lt_irrefl _)
  · rfl
  · rfl
  · exfalso
    have hlr : l = r := le_antisymm (not_lt.1 h2) (not_lt.1 h1)
    rw [hlr, sub_self, abs_zero] at hC
    norm_num at hC
  · rfl

/-! ### Per-exercise missing-keypoint flag (C5) -/

/-- Modelled from the spec: the per-exercise required-landmark lists of
the missing-keypoint detector (spec §4.3.2).  The detector itself is
absent from `src/`; only its caller `processRoboflowResponse`
(`roboflow.ts`) appears there.  Squat/deadlift require
`{shoulder, hip, knee, ankle} × {left, right}`, bench requires
`{shoulder, elbow, wrist} × {left, right}`. -/
def requiredLandmarks : Exercise → List String
  | .squat =>
      ["left_shoulder", "right_shoulder", "left_hip", "right_hip",
       "left_knee", "right_knee", "left_ankle", "right_ankle"]
  | .deadlift =>
      ["left_shoulder", "right_shoulder", "left_hip", "right_hip",
       "left_knee", "right_knee", "left_ankle", "right_ankle"]
  | .bench =>
      ["left_shoulder", "right_shoulder", "left_elbow", "right_elbow",
       "left_wrist", "right_wrist"]

/-- Modelled from the spec: the number of required landmarks that are
absent entirely or have confidence `≤ 0.3`. -/
def missingRequiredCount (kps : List KeypointData) (ex : Exercise) : ℕ :=
  ((requiredLandmarks ex).filter (fun name =>
    match findKp kps name with
    | none => true
    | some kp => decide (kp.confidence ≤ 3/10))).length

/-- Modelled from the spec: `missingKeypoints` is set when the count of
low or absent required landmarks exceeds `30%` of the required count. -/
def missingKeypoints (kps : List KeypointData) (ex : Exercise) : Bool :=
  decide ((3 : ℚ)/10 * (requiredLandmarks ex).length < missingRequiredCount kps ex)

/-- The final posture decision: `processRoboflowResponse` decides
`confidence > 0.7 && score > 0.6` (`roboflow.ts`), and, modelled from the
spec, the `missingKeypoints` flag forces the decision to `false`. -/
def isGoodPosture (missing : Bool) (confidence score : ℚ) : Bool :=
  !missing && decide (7/10 < confidence) && decide (3/5 < score)

/-- C5: when more than `30%` of the exercise's required landmarks are
absent or have confidence `≤ 0.3`, the `missingKeypoints` flag is set and
the final posture decision is `false` regardless of the numeric
confidence and score. -/
theorem claim_C5_missing_keypoints_forces_bad (kps : List KeypointData)
    (ex : Exercise) (confidence score : ℚ)
    (h : missingKeypoints kps ex = true) :
    isGoodPosture (missingKeypoints kps ex) confidence score = false := by
  rw [h]
  rfl

theorem claim_C5_witness :
    isGoodPosture (missingKeypoints [] Exercise.squat) 1 1 = false :=
  claim_C5_missing_keypoints_forces_bad [] Exercise.squat 1 1
    (by simp [missingKeypoints, missingRequiredCount, requiredLandmarks, findKp]; norm_num)

/-! ### The geometric meaning of `calculateAngle` (C9) -/

/-- A rational point as a vector of the Euclidean plane. -/
noncomputable def toE (p : ℚ × ℚ) : EuclideanSpace ℝ (Fin 2) :=
  ![(p.1 : ℝ), (p.2 : ℝ)]

lemma toE_sub_apply_zero (p q : ℚ × ℚ) :
    (toE p - toE q) 0 = ((p.1 - q.1 : ℚ) : ℝ) := by
  rw [PiLp.sub_apply]
  show (p.1 : ℝ) - (q.1 : ℝ) = _
  push_cast
  ring

lemma toE_sub_apply_one (p q : ℚ × ℚ) :
    (toE p - toE q) 1 = ((p.2 - q.2 : ℚ) : ℝ) := by
  rw [PiLp.sub_apply]
  show (p.2 : ℝ) - (q.2 : ℝ) = _
  push_cast
  ring

lemma norm_toE_sub (p q : ℚ × ℚ) :
    ‖toE p - toE q‖ =
      Real.sqrt (((p.1 - q.1 : ℚ) : ℝ) ^ 2 + ((p.2 - q.2 : ℚ) : ℝ) ^ 2) := by
  rw [EuclideanSpace.norm_eq, Fin.sum_univ_two, toE_sub_apply_zero, toE_sub_apply_one,
    Real.norm_eq_abs, Real.norm_eq_abs, sq_abs, sq_abs]

lemma inner_toE_sub (p q r : ℚ × ℚ) :
    (inner (toE p - toE q) (toE r - toE q) : ℝ) =
      (((p.1 - q.1) * (r.1 - q.1) + (p.2 - q.2) * (r.2 - q.2) : ℚ) : ℝ) := by
  rw [PiLp.inner_apply, Fin.sum_univ_two, toE_sub_apply_zero, toE_sub_apply_one,
    toE_sub_apply_zero, toE_sub_apply_one]
  simp only [RCLike.inner_apply, conj_trivial]
  push_cast
  ring

lemma sq_add_sq_pos_of_ne (x y : ℝ) (h : ¬(x = 0 ∧ y = 0)) : 0 < x ^ 2 + y ^ 2 := by
  rcases not_and_or.mp h with h | h
  · have hx : 0 < x ^ 2 := by
      rw [pow_two]
      exact mul_self_pos.mpr h
    nlinarith [sq_nonneg y]
  · have hy : 0 < y ^ 2 := by
      rw [pow_two]
      exact mul_self_pos.mpr h
    nlinarith [sq_nonneg x]

/-- C9: on non-degenerate input (both rays nonzero), `calculateAngle`
returns the interior angle at the vertex `p2` between the rays to `p1`
and to `p3` — Mathlib's unoriented Euclidean angle — converted to
degrees, and that value lies in `[0, 180]`; the cosine argument is
clamped to `[-1, 1]` before `arccos`, which on such input is the identity
by the Cauchy–Schwarz inequality. -/
theorem claim_C9_calculate_angle (p1 p2 p3 : ℚ × ℚ) (h1 : p1 ≠ p2) (h3 : p3 ≠ p2) :
    ∃ θ : ℝ, calculateAngle p1 p2 p3 = some θ ∧
      θ = EuclideanGeometry.angle (toE p1) (toE p2) (toE p3) * (180 / Real.pi) ∧
      0 ≤ θ ∧ θ ≤ 180 := by
  have hv1 : ¬(p1.1 - p2.1 = 0 ∧ p1.2 - p2.2 = 0) := by
    rintro ⟨ha, hb⟩
    exact h1 (Prod.ext_iff.mpr ⟨sub_eq_zero.mp ha, sub_eq_zero.mp hb⟩)
  have hv3 : ¬(p3.1 - p2.1 = 0 ∧ p3.2 - p2.2 = 0) := by
    rintro ⟨ha, hb⟩
    exact h3 (Prod.ext_iff.mpr ⟨sub_eq_zero.mp ha, sub_eq_zero.mp hb⟩)
  have hm1 : (0:ℝ) < Real.sqrt (((p1.1 - p2.1 : ℚ) : ℝ) ^ 2 + ((p1.2 - p2.2 : ℚ) : ℝ) ^ 2) := by
    apply Real.sqrt_pos.mpr
    apply sq_add_sq_pos_of_ne
    rintro ⟨ha, hb⟩
    exact hv1 ⟨by exact_mod_cast ha, by exact_mod_cast hb⟩
  have hm3 : (0:ℝ) < Real.sqrt (((p3.1 - p2.1 : ℚ) : ℝ) ^ 2 + ((p3.2 - p2.2 : ℚ) : ℝ) ^ 2) := by
    apply Real.sqrt_pos.mpr
    apply sq_add_sq_pos_of_ne
    rintro ⟨ha, hb⟩
    exact hv3 ⟨by exact_mod_cast ha, by exact_mod_cast hb⟩
  have hangle : EuclideanGeometry.angle (toE p1) (toE p2) (toE p3) =
      Real.arccos ((inner (toE p1 - toE p2) (toE p3 - toE p2) : ℝ) /
        (‖toE p1 - toE p2‖ * ‖toE p3 - toE p2‖)) := by
    unfold EuclideanGeometry.angle InnerProductGeometry.angle
    rw [vsub_eq_sub, vsub_eq_sub]
  have hcs := abs_real_inner_le_norm (toE p1 - toE p2) (toE p3 - toE p2)
  set dotQ : ℚ := (p1.1 - p2.1) * (p3.1 - p2.1) + (p1.2 - p2.2) * (p3.2 - p2.2) with hdotQ
  have hprod : (0:ℝ) < ‖toE p1 - toE p2‖ * ‖toE p3 - toE p2‖ := by
    rw [norm_toE_sub, norm_toE_sub]
    exact mul_pos hm1 hm3
  have hc1 : (dotQ : ℝ) / (‖toE p1 - toE p2‖ * ‖toE p3 - toE p2‖) ≤ 1 := by
    rw [div_le_one hprod, ← inner_toE_sub]
    exact le_trans (le_abs_self _) hcs
  have hcneg : (-1:ℝ) ≤ (dotQ : ℝ) / (‖toE p1 - toE p2‖ * ‖toE p3 - toE p2‖) := by
    rw [neg_le, ← neg_div, div_le_one hprod, ← inner_toE_sub]
    exact le_trans (neg_le_abs _) hcs
  simp only [calculateAngle]
  rw [if_neg (by tauto)]
  refine ⟨_, rfl, ?_, ?_, ?_⟩
  · rw [hangle, inner_toE_sub, norm_toE_sub, norm_toE_sub]
    rw [← hdotQ]
    congr 2
    rw [norm_toE_sub, norm_toE_sub] at hc1 hcneg
    rw [min_eq_right hc1, max_eq_right hcneg]
  · exact mul_nonneg (Real.arccos_nonneg _) (by positivity)
  · calc Real.arccos _ * (180 / Real.pi) ≤ Real.pi * (180 / Real.pi) :=
        mul_le_mul_of_nonneg_right (Real.arccos_le_pi _) (by positivity)
    _ = 180 := by
        field_simp

theorem claim_C9_witness :
    ((0, 0) : ℚ × ℚ) ≠ (1, 1) ∧ ((2, 0) : ℚ × ℚ) ≠ (1, 1) ∧
    ∃ θ : ℝ, calculateAngle (0, 0) (1, 1) (2, 0) = some θ ∧
      θ = EuclideanGeometry.angle (toE (0, 0)) (toE (1, 1)) (toE (2, 0)) * (180 / Real.pi) ∧
      0 ≤ θ ∧ θ ≤ 180 :=
  ⟨by decide, by decide,
   claim_C9_calculate_angle (0, 0) (1, 1) (2, 0) (by decide) (by decide)⟩

lemma angle_down_down : calculateAngle ((100 : ℚ), 200) (100, 300) (100, 150) = some 0 := by
  simp only [calculateAngle]
  rw [if_neg (by norm_num)]
  norm_num
  left
  rw [show ((10000:ℝ)) = 100 ^ 2 by norm_num, Real.sqrt_sq (by norm_num : (0:ℝ) ≤ 100),
    show ((22500:ℝ)) = 150 ^ 2 by norm_num, Real.sqrt_sq (by norm_num : (0:ℝ) ≤ 150)]
  norm_num

lemma angle_up_down : calculateAngle ((100 : ℚ), 500) (100, 400) (100, 300) = some 180 := by
  simp only [calculateAngle]
  rw [if_neg (by norm_num)]
  norm_num
  rw [mul_comm, div_mul_cancel₀ _ Real.pi_ne_zero]

lemma angle_up_down2 : calculateAngle ((100 : ℚ), 400) (100, 300) (100, 150) = some 180 := by
  simp only [calculateAngle]
  rw [if_neg (by norm_num)]
  norm_num
  rw [show ((10000:ℝ)) = 100 ^ 2 by norm_num, Real.sqrt_sq (by norm_num : (0:ℝ) ≤ 100),
    show ((22500:ℝ)) = 150 ^ 2 by norm_num, Real.sqrt_sq (by norm_num : (0:ℝ) ≤ 150)]
  rw [show ((-15000):ℝ) / (100 * 150) = -1 by norm_num]
  rw [min_eq_right (by norm_num : (-1:ℝ) ≤ 1), max_self, Real.arccos_neg_one]
  rw [mul_comm, div_mul_cancel₀ _ Real.pi_ne_zero]

/-- The spec's scenario A squat input: a vertically stacked right side. -/
def scenarioA : List KeypointData :=
  [⟨"right_ankle", 9/10, 100, 500⟩, ⟨"right_knee", 9/10, 100, 400⟩,
   ⟨"right_hip", 9/10, 100, 300⟩, ⟨"right_shoulder", 9/10, 100, 150⟩]

theorem claim_C10_scenario_A :
    analyzeTechnique scenarioA (some Exercise.squat) =
      ⟨9/10, ["Try to squat deeper - aim for thighs parallel to the ground"],
        SideProfile.unknown⟩ ∧
    (analyzeSquatTechnique scenarioA (determineSideProfile scenarioA)).2 = 9/10 := by
  have hfa : findKp scenarioA (sideFor SideProfile.unknown ++ "_ankle") =
      some ⟨"right_ankle", 9/10, 100, 500⟩ := rfl
  have hfk : findKp scenarioA (sideFor SideProfile.unknown ++ "_knee") =
      some ⟨"right_knee", 9/10, 100, 400⟩ := rfl
  have hfh : findKp scenarioA (sideFor SideProfile.unknown ++ "_hip") =
      some ⟨"right_hip", 9/10, 100, 300⟩ := rfl
  have hfs : findKp scenarioA (sideFor SideProfile.unknown ++ "_shoulder") =
      some ⟨"right_shoulder", 9/10, 100, 150⟩ := rfl
  have hnose : findKp scenarioA "nose" = none := rfl
  have hside : determineSideProfile scenarioA = SideProfile.unknown := rfl
  have hc3 : ¬ angleGT ((100 : ℚ), 200) (100, 300) (100, 150) 45 := by
    unfold angleGT
    rw [angle_down_down]
    norm_num
  have hc4 : angleGT ((100 : ℚ), 500) (100, 400) (100, 300) 140 := by
    unfold angleGT
    rw [angle_up_down]
    norm_num
  have hc5 : ¬ angleLT ((100 : ℚ), 400) (100, 300) (100, 150) 70 := by
    unfold angleLT
    rw [angle_up_down2]
    norm_num
  have hsquat : analyzeSquatTechnique scenarioA SideProfile.unknown =
      (["Try to squat deeper - aim for thighs parallel to the ground"], 9/10) := by
    simp only [analyzeSquatTechnique]
    rw [hfa, hfk, hfh, hfs]
    dsimp only
    rw [if_neg (by norm_num), hnose]
    simp only [squatChecks, checkStep]
    simp only [pt]
    norm_num
    rw [show ((300:ℚ) - 100) = 200 by norm_num]
    simp [hc3, hc4, hc5]
    norm_num
  have hlow : lowConfidenceCount scenarioA = 0 := by
    simp [lowConfidenceCount, scenarioA, List.filter]
    norm_num
  constructor
  · simp only [analyzeTechnique]
    rw [hside, hlow, hsquat]
    norm_num
  · rw [hside, hsquat]
